import Mathlib

/-!
Verification of `fitlins/interfaces/nistats.py` (module `nistats.py`).

The Python module is shallowly embedded below. Python dictionaries with
string keys and scalar values become association lists (`Dict`); the
scalar values that occur in metadata, entity filters and contrast weight
rows become the inductive type `Val` (Python `None`, a float `NaN`, an
integer, or a string — integers stand in for the numeric weights, whose
exact numeric type plays no role in the control flow being verified).
Fallible code is embedded in `Except PyErr`.
-/

set_option autoImplicit false

namespace Fitlins

/-- Scalar values stored in metadata dictionaries, entity filters and
contrast weight rows: Python `None`, a floating-point `NaN` (pandas'
missing-value marker), an integer, or a string. -/
inductive Val where
  | vnone
  | vnan
  | vint (i : Int)
  | vstr (s : String)
  deriving DecidableEq, Repr

/-- Python `==` on the values of `Val`: `None == None` is `True`,
numbers and strings compare by value, `NaN` is equal to nothing
(including itself), and values of different kinds are unequal. -/
def pyEq : Val → Val → Bool
  | .vnone, .vnone => true
  | .vint i, .vint j => i == j
  | .vstr s, .vstr t => s == t
  | _, _ => false

/-- A Python `dict` with string keys, in insertion order. -/
abbrev Dict := List (String × Val)

/-- Python `metadata.get(key)`: the stored value, or `None` when the key
is absent. -/
def dictGet (d : Dict) (k : String) : Val :=
  match d.lookup k with
  | some v => v
  | none => Val.vnone

/-- Embeds `_match(query, metadata)` (nistats.py lines 134–138): iterate
over the query's key/value pairs and return `False` as soon as
`metadata.get(key) != val`; otherwise `True`. -/
def matchRecord (query : Dict) (metadata : Dict) : Bool :=
  query.all (fun kv => pyEq (dictGet metadata kv.1) kv.2)

/-- Embeds `_flatten(x)` (nistats.py lines 130–131): the list
comprehension `[elem for sublist in x for elem in sublist]`, i.e.
order-preserving concatenation of the inner lists. -/
def flattenLists {α : Type} (x : List (List α)) : List α :=
  x.flatten

/-- A contrast specification as consumed by `prepare_contrasts`
(nistats.py line 22): a dict with a `name`, a `type` and a `weights`
entry, the latter a list of rows, each row a partial mapping from
regressor name to value. -/
structure Contrast where
  name : String
  type : String
  weights : List Dict
  deriving DecidableEq, Repr

/-- A contrast after `prepare_contrasts`: the `weights` rows are dense
lists aligned with the regressor columns. -/
structure DenseContrast where
  name : String
  type : String
  weights : List (List Val)
  deriving DecidableEq, Repr

/-- Embeds `row[col] if col in row else 0` (nistats.py line 31). -/
def rowLookup (row : Dict) (col : String) : Val :=
  match row.lookup col with
  | some v => v
  | none => Val.vint 0

/-- Embeds `prepare_contrasts(contrasts, all_regressors)` (nistats.py
lines 22–36). The `contrasts` argument is an `Option` because nipype
inputs may be undefined (`isdefined(contrasts)` on line 23); `none`
models the undefined input, which is replaced by the empty list. Each
contrast is copied (`out = like dict unpacking of contrast`) with its
`weights` replaced by dense rows: for every row, one entry per name in
`all_regressors`, in that order, the row's value when present and the
integer `0` otherwise. -/
def prepare_contrasts (contrasts : Option (List Contrast))
    (all_regressors : List String) : List DenseContrast :=
  let cs := contrasts.getD []
  cs.map (fun c =>
    { name := c.name
      type := c.type
      weights := c.weights.map (fun row => all_regressors.map (rowLookup row)) })

/-! ## First-level driver: drift-model policy and sparse-table preparation -/

/-- Embeds the drift-model resolution of `FirstLevelModel._run_interface`
(nistats.py lines 70–77). The argument models the dense table: `none`
when `info` holds no dense table (the path is Python `None` or the
string `None` on line 70), and `some cols` when a dense table is loaded,
where `cols` is `dense.columns.tolist()` (line 72). With a dense table,
`drift_model = None if cosine_00 in column_names else cosine`
(line 73); without one, `drift_model = cosine` (line 77). -/
def driftModel (denseColumns : Option (List String)) : Option String :=
  match denseColumns with
  | some cols => if cols.contains "cosine_00" then none else some "cosine"
  | none => some "cosine"

/-- A pandas DataFrame as used for the sparse event table: a list of
column labels and rows of values aligned with those labels. -/
structure DataFrame where
  cols : List String
  rows : List (List Val)
  deriving DecidableEq, Repr

/-- The column renaming passed to `DataFrame.rename` on nistats.py lines
63–65: `condition` becomes `trial_type`, `amplitude` becomes
`modulation`, every other label is unchanged. -/
def renameCol (c : String) : String :=
  if c == "condition" then "trial_type"
  else if c == "amplitude" then "modulation"
  else c

/-- Embeds the `rename(columns=...)` call (nistats.py lines 63–65):
column labels are renamed, row data is untouched. -/
def renameFrame (df : DataFrame) : DataFrame :=
  { df with cols := df.cols.map renameCol }

/-- pandas' missing-value test: `None` and `NaN` are NA. -/
def isNA : Val → Bool
  | .vnone => true
  | .vnan => true
  | _ => false

/-- Embeds `sparse.dropna(subset=[col])` (nistats.py line 66): find the
column labelled `col` and keep exactly the rows whose value there is not
NA; a missing column label is a pandas `KeyError`, embedded as `none`. -/
def dropnaSubset (df : DataFrame) (col : String) : Option DataFrame :=
  match df.cols.findIdx? (fun c => c == col) with
  | some i => some { df with rows := df.rows.filter (fun r => !(isNA (r.getD i Val.vnan))) }
  | none => none

/-- Embeds nistats.py lines 62–66 applied to a loaded sparse table: the
`rename` of lines 63–65 followed by the `dropna(subset=[modulation])`
of line 66. -/
def prepareSparse (df : DataFrame) : Option DataFrame :=
  dropnaSubset (renameFrame df) "modulation"

/-! ## Second-level driver

`SecondLevelModel._run_interface` (nistats.py lines 145–185) is embedded
in `Except PyErr`: every Python exception the code can raise becomes an
`Except.error`. -/

/-- The Python exceptions arising in `SecondLevelModel._run_interface`.
`valueError` carries the message given to `ValueError`, `none` when the
exception is raised bare. -/
inductive PyErr where
  | typeError
  | valueError (msg : Option String)
  deriving DecidableEq, Repr

/-- The inputs of `SecondLevelModel` (nistats.py lines 117–121):
`stat_files` a list of lists of file names, `stat_metadata` a list of
lists of dicts, `contrast_info` a list of lists of dicts, and
`contrast_indices` a list of dicts. -/
structure SecondLevelInputs where
  stat_files : List (List String)
  stat_metadata : List (List Dict)
  contrast_info : List (List Dict)
  contrast_indices : List Dict
  deriving Repr

/-- The outputs of `SecondLevelModel` (nistats.py lines 124–127):
contrast map file names and their metadata dicts. -/
structure SecondLevelOutputs where
  contrast_maps : List String
  contrast_metadata : List Dict
  deriving Repr

/-- Embeds `SecondLevelModel._run_interface` (nistats.py lines
145–185). Line 148 evaluates
`prepare_contrasts(self.inputs.contrast_info)`, a call with one
argument, but `prepare_contrasts` (line 22) declares two required
positional parameters (`contrasts`, `all_regressors`): in Python the
call itself raises `TypeError` (missing 1 required positional argument)
before any line after 148 runs, on every input. The remainder of the
method body (matching, fitting, metadata) is therefore unreachable and
the embedding is the immediate `TypeError`. -/
def secondLevelRun (_ : SecondLevelInputs) : Except PyErr SecondLevelOutputs :=
  Except.error PyErr.typeError

/-- Embeds the matching loop, nistats.py lines 151–159, as it would run
on a contrast list `contrasts` (had line 148 produced one). Each
iteration first evaluates `idx = contrasts[str entities]` (line 152),
subscripting `contrasts` — a Python *list* — with a string, which raises
`TypeError`. So the loop succeeds (vacuously, with no files collected)
only on an empty contrast list, and raises `TypeError` on the first
iteration otherwise; the per-record scan of lines 153–159 runs on no
input. The element type is irrelevant to this behaviour and is left
abstract. -/
def secondLevelMatchLoop {α : Type} (contrasts : List α)
    (_stat_files : List (List String)) (_stat_metadata : List (List Dict)) :
    Except PyErr (List String) :=
  match contrasts with
  | [] => Except.ok []
  | _ :: _ => Except.error PyErr.typeError

/-- Embeds the per-filter scan of nistats.py lines 153–159 in isolation,
for one query dict `idx`: zip the flattened `stat_files` with the
flattened `stat_metadata`, append the first file whose metadata
satisfies `_match(idx, metadata)` and `break`; if the loop completes
without a match, the `for`/`else` raises a *bare* `ValueError`
(line 159), i.e. one carrying no message. -/
def matchOne (idx : Dict) (stat_files : List (List String))
    (stat_metadata : List (List Dict)) : Except PyErr String :=
  match ((flattenLists stat_files).zip (flattenLists stat_metadata)).find?
      (fun p => matchRecord idx p.2) with
  | some p => Except.ok p.1
  | none => Except.error (PyErr.valueError none)

/-! ## Theorems -/

/-- C9: for every column list, `prepare_contrasts` applied to an
undefined (`none`) or empty contrast sequence returns the empty
sequence, raising no error. -/
theorem prepare_contrasts_empty (cols : List String) :
    prepare_contrasts none cols = [] ∧ prepare_contrasts (some []) cols = [] :=
  ⟨rfl, rfl⟩

/-- C10: in `_match`, a query key mapped to `None` is satisfied by a
record whose metadata lacks that key entirely: `metadata.get(key)`
yields `None` for an absent key, which compares equal to the query's
`None`, exactly as it does when the metadata stores `None` explicitly —
so the predicate does not distinguish the two. -/
theorem match_none_key (key : String) (metadata : Dict)
    (h : metadata.lookup key = none) :
    dictGet metadata key = Val.vnone ∧
    matchRecord [(key, Val.vnone)] metadata = true ∧
    matchRecord [(key, Val.vnone)] ((key, Val.vnone) :: metadata) = true := by
  refine ⟨?_, ?_, ?_⟩ <;> simp [dictGet, matchRecord, h, pyEq]

/-- Witness for `match_none_key` at a concrete record lacking the
queried key. -/
theorem match_none_key_witness :
    dictGet [("run", Val.vint 1)] "task" = Val.vnone ∧
    matchRecord [("task", Val.vnone)] [("run", Val.vint 1)] = true ∧
    matchRecord [("task", Val.vnone)]
      (("task", Val.vnone) :: [("run", Val.vint 1)]) = true :=
  match_none_key "task" [("run", Val.vint 1)] (by decide)

/-- C5: the drift-model argument handed to the design-matrix builder is
`None` exactly when a dense table is supplied whose columns include
`cosine_00`; with a dense table lacking that column, or with no dense
table, it is `cosine`. -/
theorem drift_model_policy (cols : List String) :
    ("cosine_00" ∈ cols → driftModel (some cols) = none) ∧
    ("cosine_00" ∉ cols → driftModel (some cols) = some "cosine") ∧
    driftModel none = some "cosine" := by
  refine ⟨fun h => ?_, fun h => ?_, rfl⟩ <;> simp [driftModel, h]

/-- Witness for `drift_model_policy`: both branches at concrete column
lists, plus the no-dense-table case. -/
theorem drift_model_policy_witness :
    driftModel (some ["trans_x", "cosine_00"]) = none ∧
    driftModel (some ["trans_x"]) = some "cosine" ∧
    driftModel none = some "cosine" :=
  ⟨(drift_model_policy ["trans_x", "cosine_00"]).1 (by decide),
   (drift_model_policy ["trans_x"]).2.1 (by decide),
   (drift_model_policy ["trans_x"]).2.2⟩

/-- C8: preparing a supplied sparse table renames column `condition` to
`trial_type` and `amplitude` to `modulation`, keeps exactly the rows
whose `modulation` value is defined (not NA), and passes those rows
through unchanged (the surviving rows are a prefix-order-preserving
sublist of the input rows). `i` is the position of the `modulation`
column after renaming. -/
theorem sparse_rename_dropna (df : DataFrame) (i : Nat)
    (h : (df.cols.map renameCol).findIdx? (fun c => c == "modulation") = some i) :
    renameCol "condition" = "trial_type" ∧
    renameCol "amplitude" = "modulation" ∧
    (df.rows.filter (fun r => !(isNA (r.getD i Val.vnan)))).Sublist df.rows ∧
    prepareSparse df =
      some { cols := df.cols.map renameCol,
             rows := df.rows.filter (fun r => !(isNA (r.getD i Val.vnan))) } := by
  refine ⟨rfl, rfl, List.filter_sublist _, ?_⟩
  simp [prepareSparse, dropnaSubset, renameFrame, h]

/-- Witness for `sparse_rename_dropna`: a concrete four-column event
table with one NA `amplitude` row, which is dropped. -/
theorem sparse_rename_dropna_witness :
    renameCol "condition" = "trial_type" ∧
    renameCol "amplitude" = "modulation" ∧
    (([[Val.vint 0, Val.vstr "go", Val.vint 2],
       [Val.vint 1, Val.vstr "stop", Val.vnan]].filter
        (fun r => !(isNA (r.getD 2 Val.vnan)))).Sublist
      [[Val.vint 0, Val.vstr "go", Val.vint 2],
       [Val.vint 1, Val.vstr "stop", Val.vnan]]) ∧
    prepareSparse
      { cols := ["onset", "condition", "amplitude"],
        rows := [[Val.vint 0, Val.vstr "go", Val.vint 2],
                 [Val.vint 1, Val.vstr "stop", Val.vnan]] } =
      some { cols := ["onset", "condition", "amplitude"].map renameCol,
             rows := [[Val.vint 0, Val.vstr "go", Val.vint 2],
                      [Val.vint 1, Val.vstr "stop", Val.vnan]].filter
                       (fun r => !(isNA (r.getD 2 Val.vnan))) } :=
  sparse_rename_dropna
    { cols := ["onset", "condition", "amplitude"],
      rows := [[Val.vint 0, Val.vstr "go", Val.vint 2],
               [Val.vint 1, Val.vstr "stop", Val.vnan]] } 2 (by decide)

/-- C2: `prepare_contrasts` produces one output contrast per input
contrast in the same order; each weights row becomes a dense row of
length exactly `cols.length` whose `k`-th entry is `rowLookup row
(cols[k])` — the row's value when the key is present and `0` otherwise —
so a row key absent from `cols` raises no error and contributes nothing
to the output. -/
theorem prepare_contrasts_dense (contrasts : List Contrast) (cols : List String)
    (i : Nat) (c : Contrast) (hc : contrasts[i]? = some c)
    (j : Nat) (row : Dict) (hrow : c.weights[j]? = some row) :
    (prepare_contrasts (some contrasts) cols).length = contrasts.length ∧
    ∃ dc : DenseContrast,
      (prepare_contrasts (some contrasts) cols)[i]? = some dc ∧
      dc.name = c.name ∧ dc.type = c.type ∧
      dc.weights.length = c.weights.length ∧
      ∃ drow : List Val,
        dc.weights[j]? = some drow ∧
        drow.length = cols.length ∧
        ∀ k : Nat, drow[k]? = (cols[k]?).map (rowLookup row) := by
  refine ⟨by simp [prepare_contrasts], ?_⟩
  refine ⟨{ name := c.name, type := c.type,
            weights := c.weights.map (fun row => cols.map (rowLookup row)) },
          by simp [prepare_contrasts, hc], rfl, rfl, by simp, ?_⟩
  refine ⟨cols.map (rowLookup row), by simp [hrow], by simp, fun k => by simp⟩

/-- Witness for `prepare_contrasts_dense`: one contrast with a single
row `{a: 2, extra: 7}` against columns `[a, b]`; `extra` is silently
dropped and `b` is filled with zero. -/
theorem prepare_contrasts_dense_witness :
    (prepare_contrasts
      (some [{ name := "c1", type := "t",
               weights := [[("a", Val.vint 2), ("extra", Val.vint 7)]] }])
      ["a", "b"]).length = 1 ∧
    ∃ dc : DenseContrast,
      (prepare_contrasts
        (some [{ name := "c1", type := "t",
                 weights := [[("a", Val.vint 2), ("extra", Val.vint 7)]] }])
        ["a", "b"])[0]? = some dc ∧
      dc.name = "c1" ∧ dc.type = "t" ∧
      dc.weights.length = 1 ∧
      ∃ drow : List Val,
        dc.weights[0]? = some drow ∧
        drow.length = 2 ∧
        ∀ k : Nat, drow[k]? =
          ((["a", "b"] : List String)[k]?).map
            (rowLookup [("a", Val.vint 2), ("extra", Val.vint 7)]) :=
  prepare_contrasts_dense
    [{ name := "c1", type := "t",
       weights := [[("a", Val.vint 2), ("extra", Val.vint 7)]] }]
    ["a", "b"] 0
    { name := "c1", type := "t",
      weights := [[("a", Val.vint 2), ("extra", Val.vint 7)]] }
    (by rfl) 0 [("a", Val.vint 2), ("extra", Val.vint 7)] (by rfl)

/-- C1: the claim — the second-level matcher returns exactly one record
per filter, in filter order, each the first flattened-pool match — fails
on the code. `SecondLevelModel._run_interface` raises `TypeError` at
line 148 (`prepare_contrasts` called with one of its two required
positional arguments) on every input, and even the matching loop of
lines 151–159, run on a nonempty contrast list, raises `TypeError` at
`idx = contrasts[entities]` (line 152, a string subscript of a list)
instead of returning one matched file per filter. Evaluated at a pool
of two records and two filters each satisfied by one record. -/
theorem second_level_match_crashes :
    secondLevelRun
      { stat_files := [["f1"], ["f2"]],
        stat_metadata := [[[("id", Val.vint 1)]], [[("id", Val.vint 2)]]],
        contrast_info := [[[("id", Val.vint 1)]], [[("id", Val.vint 2)]]],
        contrast_indices := [[("id", Val.vint 1)], [("id", Val.vint 2)]] } =
      Except.error PyErr.typeError ∧
    secondLevelMatchLoop
      ([[("id", Val.vint 1)], [("id", Val.vint 2)]] : List Dict)
      [["f1"], ["f2"]] [[[("id", Val.vint 1)]], [[("id", Val.vint 2)]]] =
      Except.error PyErr.typeError :=
  ⟨rfl, rfl⟩

/-- C3: the claim — an unmatched filter raises a fatal error whose
message describes the cause — fails on the code. On the literal example
(pool `{id:1},{id:2}`, filter `{id:3}`) the method aborts, but with the
line-148 `TypeError`, not the described message; and the unmatched
branch it would use, the `for`/`else` of lines 153–159, raises a bare
`ValueError` carrying no message at all (line 159), not one describing
the unmatched filter. -/
theorem unmatched_filter_error_messageless :
    secondLevelRun
      { stat_files := [["f1", "f2"]],
        stat_metadata := [[[("id", Val.vint 1)], [("id", Val.vint 2)]]],
        contrast_info := [[[("id", Val.vint 3)]]],
        contrast_indices := [[("id", Val.vint 3)]] } =
      Except.error PyErr.typeError ∧
    matchOne [("id", Val.vint 3)] [["f1", "f2"]]
      [[[("id", Val.vint 1)], [("id", Val.vint 2)]]] =
      Except.error (PyErr.valueError none) :=
  ⟨rfl, rfl⟩

/-- C4: the claim — nonzero weights select the corresponding matched
files into a one-column design — concerns lines 166–171, which no input
reaches: the method raises `TypeError` at line 148 on every input, and
the matching loop that would have produced the matched files raises
`TypeError` at line 152 on any nonempty contrast list, so no file is
ever selected. Evaluated at a three-file pool (the `[1, 0, -1]`
scenario). -/
theorem nonzero_weight_selection_unreachable :
    secondLevelRun
      { stat_files := [["a.nii", "b.nii", "c.nii"]],
        stat_metadata := [[[("run", Val.vint 1)], [("run", Val.vint 2)],
                           [("run", Val.vint 3)]]],
        contrast_info := [[[("name", Val.vstr "pos_vs_neg")]]],
        contrast_indices := [[("run", Val.vint 1)], [("run", Val.vint 2)],
                             [("run", Val.vint 3)]] } =
      Except.error PyErr.typeError ∧
    secondLevelMatchLoop ([[("name", Val.vstr "pos_vs_neg")]] : List Dict)
      [["a.nii", "b.nii", "c.nii"]]
      [[[("run", Val.vint 1)], [("run", Val.vint 2)], [("run", Val.vint 3)]]] =
      Except.error PyErr.typeError :=
  ⟨rfl, rfl⟩

/-- C6: the claim — output metadata is the intersection of contributing
entity mappings plus `type: stat` and `contrast: original weights` —
concerns lines 161–162 and 176–180, which no input reaches: the method
raises `TypeError` at line 148 on every input, so no metadata record is
ever produced. (Were it reached, line 179 also stores the whole contrast
object, not its weights.) Evaluated at an input with two contributing
entity mappings sharing `sub = 01`. -/
theorem second_level_metadata_unreachable :
    secondLevelRun
      { stat_files := [["s1.nii"], ["s2.nii"]],
        stat_metadata := [[[("sub", Val.vstr "01"), ("run", Val.vint 1)]],
                          [[("sub", Val.vstr "01"), ("run", Val.vint 2)]]],
        contrast_info := [[[("sub", Val.vstr "01")]]],
        contrast_indices := [[("sub", Val.vstr "01"), ("run", Val.vint 1)],
                             [("sub", Val.vstr "01"), ("run", Val.vint 2)]] } =
      Except.error PyErr.typeError :=
  rfl

/-- C7: the claim — an all-zero weight vector raises a fatal
degenerate-contrast error — fails on the code: the method raises
`TypeError` at line 148 on every input, including the all-zero scenario,
and lines 166–173 contain no emptiness test of the nonzero-weight subset
at all, so the abort that does occur is the unconditional line-148
`TypeError`, not a degenerate-contrast error. -/
theorem degenerate_contrast_unreachable :
    secondLevelRun
      { stat_files := [["a.nii", "b.nii", "c.nii"]],
        stat_metadata := [[[("run", Val.vint 1)], [("run", Val.vint 2)],
                           [("run", Val.vint 3)]]],
        contrast_info := [[[("name", Val.vstr "all_zero")]]],
        contrast_indices := [[("run", Val.vint 1)]] } =
      Except.error PyErr.typeError ∧
    secondLevelMatchLoop ([[("name", Val.vstr "all_zero")]] : List Dict)
      [["a.nii", "b.nii", "c.nii"]]
      [[[("run", Val.vint 1)], [("run", Val.vint 2)], [("run", Val.vint 3)]]] =
      Except.error PyErr.typeError :=
  ⟨rfl, rfl⟩

end Fitlins
